import Mathlib

/-!
Verification development for the psatrack telemetry core.

This file shallowly embeds the data model and the operations of the
repository's telemetry acquisition and caching core:

* GeoMath (`metersBetween` from src/lib/gateMatching.ts, `nmToKm` and
  `bboxFromCenter` from src/app/api/aircraft/nearby/[icao]/route.ts),
* the airline callsign filters (`isPsaAircraft` from the first route
  variant, `isPsaCallsign` from the second),
* the aircraft-nearby route handler `GET` (first variant of
  src/app/api/aircraft/nearby/[icao]/route.ts) as a state-transition
  function over the process-local memory cache and the durable cache row,
  with all external effects (durable reads and writes, token acquisition,
  the two possible upstream fetches) supplied by an explicit oracle,
* the OAuth token cache `getOpenSkyToken` from lib/openskyAuth.ts,
* the in-flight de-duplication logic of
  `getOpenSkyNearbyCached` (src/lib/openskyClient.ts), modelled as the
  synchronous arrival step each concurrent caller executes on the shared
  single-process state before any pending fetch resolves,
* the gate-occupancy matcher `matchAircraftToGates`
  (src/lib/gateMatching.ts), and
* the trail-update pass of src/components/SurfaceMap.tsx.

JavaScript numbers are modelled as rationals where the code only does
arithmetic and comparisons, and as real numbers where trigonometric
functions are involved; timestamps are integers in milliseconds.
-/

namespace PsaTrack

/-! ## JavaScript string library model

The JS string methods the source uses (`toUpperCase`, `trim`,
`startsWith`) are modelled structurally over the character list so that
they evaluate inside the kernel. `jsTrim` strips space characters, which
is what the callsign padding of the telemetry feed consists of. -/

def jsToUpper (s : String) : String := String.mk (s.data.map Char.toUpper)

def jsTrim (s : String) : String :=
  String.mk (((s.data.dropWhile (fun c => c = ' ')).reverse.dropWhile (fun c => c = ' ')).reverse)

def jsStartsWith (s p : String) : Bool := p.data.isPrefixOf s.data

/-! ## GeoMath -/

/-- A latitude/longitude pair, as consumed by `metersBetween`. -/
structure GeoPoint where
  lat : ℝ
  lon : ℝ

/-- JavaScript's `Math.atan2(y, x)`. -/
noncomputable def atan2 (y x : ℝ) : ℝ :=
  if 0 < x then Real.arctan (y / x)
  else if x < 0 then
    (if 0 ≤ y then Real.arctan (y / x) + Real.pi else Real.arctan (y / x) - Real.pi)
  else if 0 < y then Real.pi / 2
  else if y < 0 then -(Real.pi / 2)
  else 0

/-- Haversine distance in meters, from `metersBetween` in
src/lib/gateMatching.ts: earth radius 6371000 m, `x` is the haversine
of the central angle, and the result is `2 * R * atan2(sqrt x, sqrt (1-x))`. -/
noncomputable def metersBetween (a b : GeoPoint) : ℝ :=
  let dLat := (b.lat - a.lat) * Real.pi / 180
  let dLon := (b.lon - a.lon) * Real.pi / 180
  let lat1 := a.lat * Real.pi / 180
  let lat2 := b.lat * Real.pi / 180
  let x := Real.sin (dLat / 2) ^ 2 + Real.cos lat1 * Real.cos lat2 * Real.sin (dLon / 2) ^ 2
  2 * 6371000 * atan2 (Real.sqrt x) (Real.sqrt (1 - x))

/-- Nautical miles to kilometers, from `nmToKm` in the route file. -/
noncomputable def nmToKm (nm : ℝ) : ℝ := nm * 1.852

/-- The bounding box returned by `bboxFromCenter`. -/
structure BBox where
  lamin : ℝ
  lamax : ℝ
  lomin : ℝ
  lomax : ℝ

/-- Bounding box construction from `bboxFromCenter` in
src/app/api/aircraft/nearby/[icao]/route.ts: `dLat = rKm / 111`,
`dLon = rKm / (111 * cos(lat * pi / 180))`. -/
noncomputable def bboxFromCenter (lat lon radiusNm : ℝ) : BBox :=
  let rKm := nmToKm radiusNm
  let dLat := rKm / 111
  let dLon := rKm / (111 * Real.cos (lat * Real.pi / 180))
  ⟨lat - dLat, lat + dLat, lon - dLon, lon + dLon⟩

/-! ## The aircraft-nearby route handler (first variant of route.ts) -/

namespace Route

def MEM_CACHE_MS : ℤ := 6000

def FRESH_TTL_MS : ℤ := 3000

def COOLDOWN_ON_FAIL_MS : ℤ := 10000

def DEFAULT_RADIUS_NM : ℚ := 500

/-- One entry of the static `AIRPORTS` table. -/
structure Airport where
  icao : String
  lat : ℚ
  lon : ℚ
deriving DecidableEq

/-- The `AIRPORTS` record of the route file, as a lookup function. -/
def AIRPORTS (code : String) : Option Airport :=
  if code = ("SAV") then some ⟨("KSAV"), 32.1270, -81.2020⟩
  else if code = ("CLT") then some ⟨("KCLT"), 35.2140, -80.9431⟩
  else if code = ("DAY") then some ⟨("KDAY"), 39.9024, -84.2194⟩
  else if code = ("DFW") then some ⟨("KDFW"), 32.8998, -97.0403⟩
  else if code = ("PHL") then some ⟨("KPHL"), 39.8744, -75.2424⟩
  else none

/-- A normalized aircraft record as produced by the route's success path. -/
structure RouteAircraft where
  icao24 : Option String
  callsign : Option String
  lat : ℚ
  lon : ℚ
  onGround : Bool
  velocity : Option ℚ
  track : Option ℚ
  lastContact : Option ℚ
deriving DecidableEq

/-- The airline allow-list filter `isPsaAircraft` of the first route
variant: uppercased trimmed callsign must start with one of the six
configured prefixes JIA, AAL, ASH, ENY, PDT, AWI. -/
def isPsaAircraft (a : RouteAircraft) : Bool :=
  let cs := jsToUpper (jsTrim (a.callsign.getD ("")))
  jsStartsWith cs ("JIA") || jsStartsWith cs ("AAL") || jsStartsWith cs ("ASH") ||
    jsStartsWith cs ("ENY") || jsStartsWith cs ("PDT") || jsStartsWith cs ("AWI")

/-- The airline filter `isPsaCallsign` of the second route variant:
uppercased trimmed callsign must start with JIA. -/
def isPsaCallsign (callsign : Option String) : Bool :=
  let cs := jsToUpper (jsTrim (callsign.getD ("")))
  jsStartsWith cs ("JIA")

/-- A raw OpenSky state vector, keeping the positions the route reads:
`[0]=icao24, [1]=callsign, [4]=lastContact, [5]=lon, [6]=lat,
[8]=onGround, [9]=velocity, [10]=track`. An `Option` field is `none`
when the slot is absent or not of the expected type. -/
structure RawState where
  icao24 : Option String
  callsign : Option String
  lastContact : Option ℚ
  lon : Option ℚ
  lat : Option ℚ
  onGround : Bool
  velocity : Option ℚ
  track : Option ℚ
deriving DecidableEq

/-- Normalization of one raw vector (the `.map` body of the route's
success path): drop the record when `lat` or `lon` is not a number,
uppercase and trim the callsign, turn an empty callsign into `null`. -/
def normalizeState (s : RawState) : Option RouteAircraft :=
  let callsignRaw := match s.callsign with
    | some c => jsToUpper (jsTrim c)
    | none => ("")
  match s.lat, s.lon with
  | some la, some lo =>
      some ⟨s.icao24, if callsignRaw = ("") then none else some callsignRaw,
        la, lo, s.onGround, s.velocity, s.track, s.lastContact⟩
  | _, _ => none

/-- A response payload (the JSON object built by the route). Fields are
optional because a payload read back from the durable store may lack any
of them. -/
structure RoutePayload where
  airportCode : Option String
  radiusNm : Option ℚ
  aircraft : Option (List RouteAircraft)
  stale : Option Bool
  source : Option String
  updatedAt : Option ℤ
deriving DecidableEq

/-- A durable-cache row of the `aircraft_cache` table: `updated_at`,
`cooldown_until` and the stored payload (`none` when unparseable). -/
structure DbRow where
  updated_at : ℤ
  cooldown_until : Option ℤ
  payload : Option RoutePayload
deriving DecidableEq

/-- One entry of the process-local `memCache` map. -/
structure MemEntry where
  ts : ℤ
  payload : RoutePayload
deriving DecidableEq

/-- The state the handler reads and writes: the process-local memory
cache keyed by `base:radius.toFixed(2)` and the durable rows keyed by
`(base_code, radius_nm)`. -/
structure ServerState where
  mem : String × ℚ → Option MemEntry
  db : String × ℚ → Option DbRow

/-- Outcome of one upstream OpenSky fetch that returned an HTTP
response: status plus the parsed `states` array (`none` when the body
did not parse or had no array). -/
structure FetchRes where
  status : ℕ
  states : Option (List RawState)
deriving DecidableEq

/-- Oracle fixing every external effect of one handler invocation:
whether each durable read throws, the two possible token-manager
outcomes, the two possible upstream fetches (`none` models an
exception or timeout), and whether durable writes succeed. -/
structure Oracle where
  dbRead1Ok : Bool
  dbRead2Ok : Bool
  token1 : Except String String
  token2 : Except String String
  fetch1 : Option FetchRes
  fetch2 : Option FetchRes
  dbWriteOk : Bool

/-- The radius rounding done by `radiusNm.toFixed(2)` when building the
memory-cache key. -/
def round2 (q : ℚ) : ℚ := ((⌊q * 100 + 1 / 2⌋ : ℤ) : ℚ) / 100

/-- Result of one handler invocation: HTTP status, response payload
(`none` for the 404 and debug responses, whose bodies carry no aircraft
list), the successor state, the number of upstream OpenSky calls
issued, and the bearer tokens those calls used. -/
structure RouteResult where
  status : ℕ
  payload : Option RoutePayload
  state' : ServerState
  fetchCount : ℕ
  fetchTokens : List String

/-- JavaScript's `response.ok`: status in the range 200-299. -/
def responseOk (r : FetchRes) : Bool := decide (200 ≤ r.status) && decide (r.status < 300)

def updateMem (m : String × ℚ → Option MemEntry) (k : String × ℚ) (v : MemEntry) :
    String × ℚ → Option MemEntry :=
  fun k' => if k' = k then some v else m k'

def updateDb (d : String × ℚ → Option DbRow) (k : String × ℚ) (v : DbRow) :
    String × ℚ → Option DbRow :=
  fun k' => if k' = k then some v else d k'

/-- The fallback payload both failure paths build: the cached payload if
one exists (else an empty skeleton), with airport, radius overridden and
the aircraft list filtered by `isPsaAircraft`. -/
def fallbackPayload (cachedPayload : Option RoutePayload) (key : String) (radiusNm : ℚ) :
    RoutePayload :=
  let base := cachedPayload.getD ⟨some key, some radiusNm, some [], none, none, none⟩
  { base with
    airportCode := some key
    radiusNm := some radiusNm
    aircraft := some ((base.aircraft.getD []).filter isPsaAircraft) }

/-- Shared failure continuation of the route (the `!response.ok` branch
and the `catch` branch): build the fallback, call `setCooldown` on the
durable row unless `force` (the write itself may fail and is swallowed),
tag the payload, memoize it, return 200. -/
def failStep (st : ServerState) (now : ℤ) (key : String) (radiusNm : ℚ)
    (cachedPayload : Option RoutePayload) (dbCached : Option DbRow)
    (force : Bool) (dbWriteOk : Bool) (src : String) (count : ℕ) (toks : List String) :
    RouteResult :=
  let fallback := fallbackPayload cachedPayload key radiusNm
  let db' :=
    if (!force) && dbWriteOk then
      updateDb st.db (key, radiusNm) ⟨now, some (now + COOLDOWN_ON_FAIL_MS), some fallback⟩
    else st.db
  let payload := { fallback with
    stale := some true
    source := some src
    updatedAt := dbCached.map (fun r => r.updated_at) }
  let mem' := updateMem st.mem (key, round2 radiusNm) ⟨now, payload⟩
  ⟨200, some payload, ⟨mem', db'⟩, count, toks⟩

/-- Success continuation of the route: normalize the states array,
filter it by `isPsaAircraft`, write the durable row with
`cooldown_until = null` (write failures swallowed), memoize, return 200. -/
def successStep (st : ServerState) (now : ℤ) (key : String) (radiusNm : ℚ)
    (dbWriteOk : Bool) (res : FetchRes) (count : ℕ) (toks : List String) : RouteResult :=
  let states := res.states.getD []
  let aircraft := (states.filterMap normalizeState).filter isPsaAircraft
  let payload : RoutePayload :=
    ⟨some key, some radiusNm, some aircraft, some false, some ("opensky_live"), some now⟩
  let db' :=
    if dbWriteOk then updateDb st.db (key, radiusNm) ⟨now, none, some payload⟩ else st.db
  let mem' := updateMem st.mem (key, round2 radiusNm) ⟨now, payload⟩
  ⟨200, some payload, ⟨mem', db'⟩, count, toks⟩

/-- What the route does once an HTTP response is in hand (after the
optional 401 retry): the debug short-circuit, then `response.ok`
dispatch to success or failure. -/
def livePhase (st : ServerState) (now : ℤ) (key : String) (radiusNm : ℚ)
    (cachedPayload : Option RoutePayload) (dbCached : Option DbRow)
    (force debug : Bool) (dbWriteOk : Bool) (res : FetchRes) (count : ℕ)
    (toks : List String) : RouteResult :=
  if debug then ⟨200, none, st, count, toks⟩
  else if responseOk res then successStep st now key radiusNm dbWriteOk res count toks
  else
    failStep st now key radiusNm cachedPayload dbCached force dbWriteOk
      (("opensky_http_") ++ toString res.status) count toks

/-- The route handler body after airport resolution, for a known base
`key`. Mirrors the first variant of route.ts step by step: memory-cache
check, durable-cache freshness/cooldown check, fallback durable read,
token acquisition, fetch with a single 401 retry, then the
debug/success/failure continuations. -/
def GETKnown (st : ServerState) (now : ℤ) (key : String) (radiusParam : Option ℚ)
    (force debug : Bool) (o : Oracle) : RouteResult :=
  let radiusNm := radiusParam.getD DEFAULT_RADIUS_NM
  let ck : String × ℚ := (key, round2 radiusNm)
  let memHit : Option MemEntry :=
    if force then none
    else match st.mem ck with
      | some m => if now - m.ts < MEM_CACHE_MS then some m else none
      | none => none
  match memHit with
  | some m => ⟨200, some m.payload, st, 0, []⟩
  | none =>
    let dbCached0 : Option DbRow :=
      if force then none else (if o.dbRead1Ok then st.db (key, radiusNm) else none)
    let cachedPayload0 := dbCached0.bind (fun r => r.payload)
    let dbUpdatedMs : ℤ := match dbCached0 with
      | some r => r.updated_at
      | none => 0
    let dbIsFresh : Bool := dbCached0.isSome && decide (now - dbUpdatedMs < FRESH_TTL_MS)
    let cooldownUntilMs : ℤ := match dbCached0 with
      | some r => r.cooldown_until.getD 0
      | none => 0
    let inCooldown : Bool := (cooldownUntilMs != 0) && decide (now < cooldownUntilMs)
    let cacheMatchesRadius : Bool :=
      match cachedPayload0 with
      | some cp => match cp.radiusNm with
          | some r => decide (|r - radiusNm| < 1 / 1000)
          | none => false
      | none => false
    let serveCached : Option RoutePayload :=
      match cachedPayload0 with
      | some cp => if cacheMatchesRadius && (dbIsFresh || inCooldown) then some cp else none
      | none => none
    match serveCached with
    | some cp =>
        let filteredAircraft := (cp.aircraft.getD []).filter isPsaAircraft
        let payload := { cp with
          aircraft := some filteredAircraft
          stale := some (!dbIsFresh)
          source := some (if dbIsFresh then ("cache_fresh") else ("cache_cooldown"))
          updatedAt := some dbUpdatedMs }
        let mem' := updateMem st.mem ck ⟨now, payload⟩
        ⟨200, some payload, ⟨mem', st.db⟩, 0, []⟩
    | none =>
        let dbCached : Option DbRow :=
          match dbCached0 with
          | some r => some r
          | none => if o.dbRead2Ok then st.db (key, radiusNm) else none
        let cachedPayload := dbCached.bind (fun r => r.payload)
        match o.token1 with
        | .error _ =>
            failStep st now key radiusNm cachedPayload dbCached force o.dbWriteOk
              ("cache_fetch_failed") 0 []
        | .ok tok =>
            match o.fetch1 with
            | none =>
                failStep st now key radiusNm cachedPayload dbCached force o.dbWriteOk
                  ("cache_fetch_failed") 1 [tok]
            | some r1 =>
                if r1.status = 401 then
                  match o.token2 with
                  | .error _ =>
                      failStep st now key radiusNm cachedPayload dbCached force o.dbWriteOk
                        ("cache_fetch_failed") 1 [tok]
                  | .ok tok2 =>
                      match o.fetch2 with
                      | none =>
                          failStep st now key radiusNm cachedPayload dbCached force
                            o.dbWriteOk ("cache_fetch_failed") 2 [tok, tok2]
                      | some r2 =>
                          livePhase st now key radiusNm cachedPayload dbCached force debug
                            o.dbWriteOk r2 2 [tok, tok2]
                else
                  livePhase st now key radiusNm cachedPayload dbCached force debug
                    o.dbWriteOk r1 1 [tok]

/-- The exported `GET` handler: resolve the airport from the uppercased,
trimmed path parameter; unknown base gives a 404, otherwise run the
handler body. -/
def GET (st : ServerState) (now : ℤ) (icaoParam : String) (radiusParam : Option ℚ)
    (force debug : Bool) (o : Oracle) : RouteResult :=
  let key := jsTrim (jsToUpper icaoParam)
  match AIRPORTS key with
  | none => ⟨404, none, st, 0, []⟩
  | some _ => GETKnown st now key radiusParam force debug o

/-- A list of aircraft that all pass the airline allow-list filter. -/
def allPsa (l : List RouteAircraft) : Prop := ∀ a ∈ l, isPsaAircraft a = true

/-- A payload whose aircraft list, when present, passes the filter. -/
def payloadPsa (p : RoutePayload) : Prop := ∀ l, p.aircraft = some l → allPsa l

/-- Invariant of the process-local memory cache: every stored payload is
already filtered. -/
def memInv (mem : String × ℚ → Option MemEntry) : Prop :=
  ∀ ck m, mem ck = some m → payloadPsa m.payload

/-- A handler result whose response payload, when present and carrying
an aircraft list, carries only filtered records. -/
def resultPsa (r : RouteResult) : Prop := ∀ p, r.payload = some p → payloadPsa p

/-- The live-fetch phase fails, for every way the route's try block can
reach its failure handling: token error, fetch exception, or a non-ok
HTTP response (including a failed 401 retry). -/
def liveFails (o : Oracle) : Prop :=
  (∃ e, o.token1 = .error e) ∨
  (∃ tok, o.token1 = .ok tok ∧
    (o.fetch1 = none ∨
      (∃ r1, o.fetch1 = some r1 ∧
        (if r1.status = 401 then
          (∃ e, o.token2 = .error e) ∨
          (∃ tok2, o.token2 = .ok tok2 ∧
            (o.fetch2 = none ∨ (∃ r2, o.fetch2 = some r2 ∧ responseOk r2 = false)))
        else responseOk r1 = false))))

end Route

/-! ## OAuth token cache (lib/openskyAuth.ts) -/

namespace OpenSkyAuth

/-- The module-level token cache of lib/openskyAuth.ts. -/
structure TokenCache where
  token : String
  exp : ℤ
deriving DecidableEq

/-- Outcome of one client-credentials exchange against the token
endpoint. -/
structure ExchangeOracle where
  ok : Bool
  access_token : String
  expires_in : Option ℤ
deriving DecidableEq

/-- The exchange branch of `getOpenSkyToken`: on a non-ok response throw;
otherwise cache the new token with
`exp = now + max(60, (expires_in ?? 1800) - 60) * 1000` and return it.
The `Bool` component records that an exchange was performed. -/
def exchangeToken (now : ℤ) (o : ExchangeOracle) :
    Except String (String × Option TokenCache × Bool) :=
  if o.ok then
    let ttlMs := (max 60 ((o.expires_in.getD 1800) - 60)) * 1000
    .ok (o.access_token, some ⟨o.access_token, now + ttlMs⟩, true)
  else .error ("OpenSky token failed")

/-- The exported `getOpenSkyToken` of lib/openskyAuth.ts. The source
function takes no parameters at all (there is no forceRefresh option in
its signature): if a cached token exists and `now < cached.exp` it is
returned as is, otherwise a client-credentials exchange runs. -/
def getOpenSkyToken (cached : Option TokenCache) (now : ℤ) (o : ExchangeOracle) :
    Except String (String × Option TokenCache × Bool) :=
  match cached with
  | some c => if now < c.exp then .ok (c.token, some c, false) else exchangeToken now o
  | none => exchangeToken now o

end OpenSkyAuth

/-! ## In-flight de-duplication (src/lib/openskyClient.ts) -/

namespace OpenSkyClient

def CACHE_TTL_MS : ℤ := 8000

def STALE_MAX_MS : ℤ := 300000

/-- One entry of the module-level `cache` map, restricted to a single
cache key. The payload a resolved fetch produced is abstracted to a
string. -/
structure OSEntry where
  value : String
  fetchedAtMs : ℤ
deriving DecidableEq

/-- The single-key view of the module state of openskyClient.ts:
`cache`, the `inflight` promise registry (a promise is identified by
the number it was allocated), and `backoffUntilMs`. -/
structure OSState where
  cache : Option OSEntry
  inflight : Option ℕ
  backoffUntil : Option ℤ
deriving DecidableEq

/-- What one caller of `getOpenSkyNearbyCached` obtains from its
synchronous prefix: a value served directly from cache, or the identity
of the in-flight promise it awaits. -/
inductive OSOutcome where
  | value (v : String)
  | await (pid : ℕ)
deriving DecidableEq

/-- The synchronous arrival step of `getOpenSkyNearbyCached`: fresh
cache hit, backoff stale-serving, in-flight attach, or creation of a new
in-flight fetch. The returned components are the caller's outcome, the
updated state, the next free promise id, and whether this arrival issued
a new network call. The step is synchronous in the JavaScript event loop,
so concurrent arrivals execute it one after another. -/
def osArrive (st : OSState) (now : ℤ) (next : ℕ) : OSOutcome × OSState × ℕ × Bool :=
  match st.cache with
  | some e =>
      if now - e.fetchedAtMs ≤ CACHE_TTL_MS then (.value e.value, st, next, false)
      else if (st.backoffUntil.getD 0) > now ∧ now - e.fetchedAtMs ≤ STALE_MAX_MS then
        (.value e.value, st, next, false)
      else
        match st.inflight with
        | some pid => (.await pid, st, next, false)
        | none => (.await next, { st with inflight := some next }, next + 1, true)
  | none =>
      match st.inflight with
      | some pid => (.await pid, st, next, false)
      | none => (.await next, { st with inflight := some next }, next + 1, true)

/-- Run `n` concurrent callers arriving before any in-flight fetch
resolves: outcomes in arrival order, final state, next free promise id,
and the total number of network calls issued. -/
def osRun (st : OSState) (now : ℤ) (next : ℕ) : ℕ → List OSOutcome × OSState × ℕ × ℕ
  | 0 => ([], st, next, 0)
  | n + 1 =>
      let r := osArrive st now next
      let rest := osRun r.2.1 now r.2.2.1 n
      (r.1 :: rest.1, rest.2.1, rest.2.2.1, (if r.2.2.2 then 1 else 0) + rest.2.2.2)

/-- The payload a caller ends with once promises resolve: a direct cache
value, or the resolved value of the awaited promise. -/
def resolveOutcome (resolve : ℕ → String) : OSOutcome → String
  | .value v => v
  | .await pid => resolve pid

end OpenSkyClient

/-! ## Gate matching (src/lib/gateMatching.ts) -/

namespace GateMatching

open scoped Classical

/-- An aircraft record as the matcher sees it: `lat`, `lon` (or the
alternative `lng` shape) and `velocity` may each be absent or not a
number. -/
structure MAircraft where
  lat : Option ℝ
  lon : Option ℝ
  lng : Option ℝ
  velocity : Option ℝ

/-- A gate record: label and position. -/
structure Gate where
  id : String
  position : GeoPoint

/-- The predicate of the `aircraft.find` callback in
`matchAircraftToGates`: coordinates must be numbers (`lon` falling back
to `lng`), the haversine distance to the gate must be under 40 meters,
and `velocity ?? 999` must be under 5. -/
def matchCond (a : MAircraft) (gatePos : GeoPoint) : Prop :=
  match a.lat, (a.lon <|> a.lng) with
  | some la, some lo =>
      metersBetween ⟨la, lo⟩ gatePos < 40 ∧ (a.velocity.getD 999) < 5
  | _, _ => False

/-- JavaScript's `Array.prototype.find` over the matcher predicate:
first matching aircraft, in list order. -/
noncomputable def findOccupant (aircraft : List MAircraft) (g : Gate) : Option MAircraft :=
  match aircraft with
  | [] => none
  | a :: rest => if matchCond a g.position then some a else findOccupant rest g

/-- Result row of `matchAircraftToGates`: the gate label and the
occupying aircraft, `null` when the gate is free. -/
structure GateResult where
  gateId : String
  aircraft : Option MAircraft

/-- The exported `matchAircraftToGates`: one result per gate, in the
configured gate order. -/
noncomputable def matchAircraftToGates (aircraft : List MAircraft) (gates : List Gate) :
    List GateResult :=
  gates.map (fun g => ⟨g.id, findOccupant aircraft g⟩)

end GateMatching

/-! ## Trail tracking (src/components/SurfaceMap.tsx) -/

namespace SurfaceMap

noncomputable def MS_TO_KTS : ℝ := 1.943844

noncomputable def TRAIL_MIN_KTS : ℝ := 5

def MAX_TRAIL_POINTS : ℕ := 18

def MAX_TRAIL_AGE_MS : ℤ := 120000

noncomputable def MIN_MOVE_METERS : ℝ := 25

/-- One stored trail point. -/
structure TrailPoint where
  lat : ℝ
  lon : ℝ
  t : ℤ

/-- An aircraft record as the trail effect reads it. -/
structure TAircraft where
  icao24 : Option String
  callsign : Option String
  lat : Option ℝ
  lon : Option ℝ
  velocity : Option ℝ

/-- JavaScript's `a || b || ""` over nullable strings: the first operand
that is non-null and non-empty, else the empty string. -/
def jsOrElse (x y : Option String) : String :=
  match x with
  | some s => if s = ("") then y.getD ("") else s
  | none => y.getD ("")

/-- The trail key `(a?.icao24 || a?.callsign || "").toString().trim()`. -/
def aircraftKey (a : TAircraft) : String := jsTrim (jsOrElse a.icao24 a.callsign)

/-- The `trailsRef.current` object: key to stored point sequence, absent
keys mapped to `none`. -/
def Trails : Type := String → Option (List TrailPoint)

/-- JavaScript's `array.slice(-n)`: the last `n` elements. -/
def lastN (n : ℕ) (l : List TrailPoint) : List TrailPoint := l.drop (l.length - n)

def setTrail (tr : Trails) (k : String) (v : List TrailPoint) : Trails :=
  fun k' => if k' = k then some v else tr k'

/-- Age-prune and cap, as done on the append branch: keep points young
enough, then `slice(-MAX_TRAIL_POINTS)`. -/
def appendPruned (now : ℤ) (prev : List TrailPoint) (p : TrailPoint) : List TrailPoint :=
  lastN MAX_TRAIL_POINTS ((prev ++ [p]).filter (fun q => decide (now - q.t ≤ MAX_TRAIL_AGE_MS)))

open scoped Classical in
/-- One iteration of the trail-update loop body for a single aircraft:
skip on empty key, non-numeric coordinates, or speed at most
`TRAIL_MIN_KTS`; append a point when there is no previous point or the
movement is at least `MIN_MOVE_METERS` (then age-prune and cap), else
only age-prune. -/
noncomputable def trailStep (now : ℤ) (tr : Trails) (a : TAircraft) : Trails :=
  let key := aircraftKey a
  if key = ("") then tr
  else match a.lat, a.lon with
    | some la, some lo =>
        let velMs := a.velocity.getD 0
        let kts := velMs * MS_TO_KTS
        if kts ≤ TRAIL_MIN_KTS then tr
        else
          let prev := (tr key).getD []
          let nextPoint : TrailPoint := ⟨la, lo, now⟩
          match prev.getLast? with
          | none => setTrail tr key (appendPruned now prev nextPoint)
          | some lastP =>
              if metersBetween ⟨lastP.lat, lastP.lon⟩ ⟨la, lo⟩ ≥ MIN_MOVE_METERS then
                setTrail tr key (appendPruned now prev nextPoint)
              else
                setTrail tr key (prev.filter (fun p => decide (now - p.t ≤ MAX_TRAIL_AGE_MS)))
    | _, _ => tr

/-- The live keys of the current snapshot list (non-empty trail keys). -/
def liveKeys (aircraft : List TAircraft) : List String :=
  (aircraft.map aircraftKey).filter (fun k => k != (""))

/-- One full trail-update pass: the per-aircraft loop followed by the
cleanup that discards every key not present in the snapshot list. -/
noncomputable def updateTrails (now : ℤ) (tr : Trails) (aircraft : List TAircraft) : Trails :=
  let tr1 := aircraft.foldl (trailStep now) tr
  fun k => if k ∈ liveKeys aircraft then tr1 k else none

/-- A point sequence wholly within the age window at time `now`. -/
def pruned (now : ℤ) (l : List TrailPoint) : Prop := ∀ p ∈ l, now - p.t ≤ MAX_TRAIL_AGE_MS

/-- Every stored trail has at most `MAX_TRAIL_POINTS` points. -/
def boundedTrails (tr : Trails) : Prop := ∀ k l, tr k = some l → l.length ≤ MAX_TRAIL_POINTS

/-- The gate conditions under which the loop body actually processes an
aircraft instead of skipping it. -/
def processed (a : TAircraft) : Prop :=
  aircraftKey a ≠ ("") ∧ (∃ la, a.lat = some la) ∧ (∃ lo, a.lon = some lo) ∧
    TRAIL_MIN_KTS < (a.velocity.getD 0) * MS_TO_KTS

/-- The trail stored under key `k`, if any, lies wholly within the age
window at time `now`. -/
def ageOk (now : ℤ) (tr : Trails) (k : String) : Prop :=
  ∀ l, tr k = some l → pruned now l

end SurfaceMap

/-! ## Helper lemmas -/

theorem cos_deg_pos {lat : ℝ} (h1 : -90 < lat) (h2 : lat < 90) :
    0 < Real.cos (lat * Real.pi / 180) := by
  apply Real.cos_pos_of_mem_Ioo
  constructor
  · have hpi := Real.pi_pos
    nlinarith
  · have hpi := Real.pi_pos
    nlinarith

theorem metersBetween_self (p : GeoPoint) : metersBetween p p = 0 := by
  unfold metersBetween atan2
  norm_num

/-- Distance along the equator from longitude `d` back to longitude `0`,
for small positive `d` in degrees. -/
theorem metersBetween_equator (d : ℝ) (hd0 : 0 < d) (hdlt : d < 90) :
    metersBetween ⟨0, d⟩ ⟨0, 0⟩ = 2 * 6371000 * (d * Real.pi / 360) := by
  have hpi := Real.pi_pos
  have hθ0 : 0 < d * Real.pi / 360 := by positivity
  have hθlt : d * Real.pi / 360 < Real.pi / 2 := by nlinarith
  have hθpi : d * Real.pi / 360 ≤ Real.pi := by nlinarith
  have hsin : 0 ≤ Real.sin (d * Real.pi / 360) :=
    Real.sin_nonneg_of_nonneg_of_le_pi (le_of_lt hθ0) hθpi
  have hcos : 0 < Real.cos (d * Real.pi / 360) :=
    Real.cos_pos_of_mem_Ioo ⟨by nlinarith, hθlt⟩
  have hx : metersBetween ⟨0, d⟩ ⟨0, 0⟩ =
      2 * 6371000 * atan2 (Real.sqrt (Real.sin (d * Real.pi / 360) ^ 2))
        (Real.sqrt (1 - Real.sin (d * Real.pi / 360) ^ 2)) := by
    unfold metersBetween
    dsimp only
    rw [show ((0:ℝ) - 0) * Real.pi / 180 / 2 = 0 by ring,
      show ((0:ℝ) - d) * Real.pi / 180 / 2 = -(d * Real.pi / 360) by ring,
      show (0:ℝ) * Real.pi / 180 = 0 by ring,
      Real.sin_neg, Real.sin_zero, Real.cos_zero, neg_sq]
    norm_num
  rw [hx, Real.sqrt_sq hsin]
  have h1s : 1 - Real.sin (d * Real.pi / 360) ^ 2 = Real.cos (d * Real.pi / 360) ^ 2 := by
    have := Real.sin_sq_add_cos_sq (d * Real.pi / 360)
    linarith
  rw [h1s, Real.sqrt_sq (le_of_lt hcos)]
  unfold atan2
  rw [if_pos hcos, ← Real.tan_eq_sin_div_cos,
    Real.arctan_tan (by nlinarith) hθlt]

end PsaTrack

/-! # Theorems settling the claims -/

namespace PsaTrack

/-- C10 counterexample: with radius 0 (an allowed value under "every
radius"), `bboxFromCenter` collapses to a degenerate box whose `lamin`
equals its `lamax`, so the claimed strict inequality fails. -/
theorem C10_counterexample :
    ¬ ((bboxFromCenter 32.127 (-81.202) 0).lamin <
        (bboxFromCenter 32.127 (-81.202) 0).lamax) := by
  unfold bboxFromCenter nmToKm
  norm_num

/-- C10 (amended): for every center with latitude strictly between -90
and 90 degrees and every strictly positive radius, `bboxFromCenter`
produces `lamin < lamax` and `lomin < lomax`, and the center lies
strictly within the box. (The original claim quantified over every
center and every radius; it fails at radius 0, where the box collapses
to the center point.) -/
theorem C10_bbox_amended (lat lon radiusNm : ℝ) (hr : 0 < radiusNm)
    (h1 : -90 < lat) (h2 : lat < 90) :
    (bboxFromCenter lat lon radiusNm).lamin < (bboxFromCenter lat lon radiusNm).lamax ∧
    (bboxFromCenter lat lon radiusNm).lomin < (bboxFromCenter lat lon radiusNm).lomax ∧
    (bboxFromCenter lat lon radiusNm).lamin < lat ∧
    lat < (bboxFromCenter lat lon radiusNm).lamax ∧
    (bboxFromCenter lat lon radiusNm).lomin < lon ∧
    lon < (bboxFromCenter lat lon radiusNm).lomax := by
  have hcos := cos_deg_pos h1 h2
  have hkm : 0 < nmToKm radiusNm := by
    unfold nmToKm
    nlinarith
  have hdLat : 0 < nmToKm radiusNm / 111 := by
    apply div_pos hkm
    norm_num
  have hdLon : 0 < nmToKm radiusNm / (111 * Real.cos (lat * Real.pi / 180)) := by
    apply div_pos hkm
    nlinarith
  unfold bboxFromCenter
  dsimp only
  refine ⟨by linarith, by linarith, by linarith, by linarith, by linarith, by linarith⟩

/-- C10 witness: the amended statement holds at the SAV airport center
with the default 500 nm radius. -/
theorem C10_bbox_amended_witness :
    (bboxFromCenter 32.127 (-81.202) 500).lamin <
      (bboxFromCenter 32.127 (-81.202) 500).lamax ∧
    (bboxFromCenter 32.127 (-81.202) 500).lomin <
      (bboxFromCenter 32.127 (-81.202) 500).lomax ∧
    (bboxFromCenter 32.127 (-81.202) 500).lamin < 32.127 ∧
    (32.127 : ℝ) < (bboxFromCenter 32.127 (-81.202) 500).lamax ∧
    (bboxFromCenter 32.127 (-81.202) 500).lomin < -81.202 ∧
    (-81.202 : ℝ) < (bboxFromCenter 32.127 (-81.202) 500).lomax :=
  C10_bbox_amended 32.127 (-81.202) 500 (by norm_num) (by norm_num) (by norm_num)

namespace GateMatching

/-- Helper: an aircraft with missing velocity never satisfies the match
predicate, because `velocity ?? 999` compares 999 against 5. -/
theorem matchCond_no_velocity (a : MAircraft) (p : GeoPoint) (hv : a.velocity = none) :
    ¬ matchCond a p := by
  unfold matchCond
  cases hla : a.lat <;> cases hlo : (a.lon <|> a.lng) <;> simp [hv]
  norm_num

/-- Helper: `findOccupant` returns `none` exactly when no aircraft in
the list satisfies the match predicate. -/
theorem findOccupant_eq_none (g : Gate) (ac : List MAircraft) :
    findOccupant ac g = none ↔ ∀ a ∈ ac, ¬ matchCond a g.position := by
  induction ac with
  | nil => simp [findOccupant]
  | cons a rest ih =>
      unfold findOccupant
      by_cases h : matchCond a g.position
      · simp [if_pos h, h]
      · simp [if_neg h, ih, h]

/-- Helper: whatever `findOccupant` returns satisfies the match
predicate and came from the list. -/
theorem findOccupant_spec (g : Gate) (ac : List MAircraft) (a : MAircraft)
    (h : findOccupant ac g = some a) : matchCond a g.position ∧ a ∈ ac := by
  induction ac with
  | nil => simp [findOccupant] at h
  | cons b rest ih =>
      unfold findOccupant at h
      by_cases hb : matchCond b g.position
      · rw [if_pos hb] at h
        cases h
        exact ⟨hb, List.mem_cons_self _ _⟩
      · rw [if_neg hb] at h
        obtain ⟨h1, h2⟩ := ih h
        exact ⟨h1, List.mem_cons_of_mem _ h2⟩

/-- C7 counterexample: an aircraft at the exact gate coordinate with
`velocity = 4` m/s is matched by `matchAircraftToGates` (the code
compares the raw m/s velocity against 5), yet its ground speed in knots,
`4 * MS_TO_KTS ≈ 7.78 kt`, is not under 5 — refuting the claim that a
gate is only matched to aircraft whose groundSpeedKt is under 5. -/
theorem C7_counterexample :
    matchAircraftToGates [⟨some 0, some 0, none, some 4⟩] [⟨("G1"), ⟨0, 0⟩⟩] =
      [⟨("G1"), some ⟨some 0, some 0, none, some 4⟩⟩] ∧
    ¬ ((4 : ℝ) * SurfaceMap.MS_TO_KTS < 5) := by
  constructor
  · have hm : matchCond ⟨some 0, some 0, none, some 4⟩ (⟨0, 0⟩ : GeoPoint) := by
      unfold matchCond
      refine ⟨?_, by norm_num⟩
      rw [show (⟨0, 0⟩ : GeoPoint) = (⟨(0:ℝ), (0:ℝ)⟩ : GeoPoint) from rfl]
      rw [metersBetween_self]
      norm_num
    unfold matchAircraftToGates
    simp only [List.map_cons, List.map_nil]
    unfold findOccupant
    dsimp only
    rw [if_pos hm]
  · unfold SurfaceMap.MS_TO_KTS
    norm_num

/-- C7 (amended): `matchAircraftToGates` returns one result per gate in
configured gate order; a gate is matched to the first aircraft whose
haversine distance to the gate is under 40 meters AND whose raw
`velocity` field (meters per second, not knots) is under 5; an aircraft
with missing velocity never matches (`velocity ?? 999`); and a gate with
no qualifying aircraft reports `aircraft = none`. In particular an
aircraft at the exact gate coordinate with velocity 0 matches, the same
aircraft 0.0009 degrees of longitude (about 100 m) away does not, and an
aircraft about 10 m away whose velocity corresponds to 20 kt
(`20 / MS_TO_KTS ≈ 10.3` m/s) does not match. (The original claim stated
the speed threshold as `groundSpeedKt < 5`; the code compares the m/s
velocity value against 5.) -/
theorem C7_gate_matching_amended :
    (∀ (ac : List MAircraft) (gates : List Gate),
      (matchAircraftToGates ac gates).map GateResult.gateId = gates.map Gate.id) ∧
    (∀ (g : Gate) (a : MAircraft) (rest : List MAircraft), matchCond a g.position →
      findOccupant (a :: rest) g = some a) ∧
    (∀ (g : Gate) (ac : List MAircraft) (a : MAircraft), findOccupant ac g = some a →
      matchCond a g.position ∧ a ∈ ac) ∧
    (∀ (g : Gate) (ac : List MAircraft),
      findOccupant ac g = none ↔ ∀ a ∈ ac, ¬ matchCond a g.position) ∧
    (∀ (a : MAircraft) (p : GeoPoint), a.velocity = none → ¬ matchCond a p) ∧
    matchCond ⟨some 0, some 0, none, some 0⟩ ⟨0, 0⟩ ∧
    ¬ matchCond ⟨some 0, some 0.0009, none, some 0⟩ ⟨0, 0⟩ ∧
    ¬ matchCond ⟨some 0, some 0.0001, none, some (20 / SurfaceMap.MS_TO_KTS)⟩ ⟨0, 0⟩ := by
  refine ⟨?_, ?_, findOccupant_spec, findOccupant_eq_none, matchCond_no_velocity, ?_, ?_, ?_⟩
  · intro ac gates
    unfold matchAircraftToGates
    simp
  · intro g a rest h
    unfold findOccupant
    rw [if_pos h]
  · unfold matchCond
    refine ⟨?_, by norm_num⟩
    rw [show (⟨0, 0⟩ : GeoPoint) = (⟨(0:ℝ), (0:ℝ)⟩ : GeoPoint) from rfl]
    rw [metersBetween_self]
    norm_num
  · unfold matchCond
    intro h
    obtain ⟨hd, _⟩ := h
    rw [metersBetween_equator 0.0009 (by norm_num) (by norm_num)] at hd
    nlinarith [Real.pi_gt_three]
  · unfold matchCond
    intro h
    obtain ⟨_, hv⟩ := h
    unfold SurfaceMap.MS_TO_KTS at hv
    norm_num at hv

/-- C7 witness: the amended theorem applied at concrete inputs — the
at-gate stationary aircraft occupies the gate, and an aircraft with
missing velocity does not match. -/
theorem C7_gate_matching_amended_witness :
    findOccupant [⟨some 0, some 0, none, some 0⟩] ⟨("G1"), ⟨0, 0⟩⟩ =
      some ⟨some 0, some 0, none, some 0⟩ ∧
    ¬ matchCond ⟨some 1, some 1, none, none⟩ ⟨0, 0⟩ :=
  ⟨C7_gate_matching_amended.2.1 ⟨("G1"), ⟨0, 0⟩⟩ _ []
      C7_gate_matching_amended.2.2.2.2.2.1,
    C7_gate_matching_amended.2.2.2.2.1 _ _ rfl⟩

end GateMatching

namespace Route

/-- C5: the `{JIA}`-prefix filter `isPsaCallsign` keeps exactly the
records whose uppercased, trimmed callsign starts with JIA — on the
spec's example inputs it keeps JIA123 and jia999 (whose route-normalized
forms are JIA123 and JIA999), excludes AAL45 and the empty callsign —
and both airline filters exclude every record whose trimmed callsign is
empty or missing. -/
theorem C5_filter_allowed :
    ([some ("JIA123"), some ("AAL45"), some ("jia999"), some ("")].filter isPsaCallsign =
      [some ("JIA123"), some ("jia999")]) ∧
    (([("JIA123"), ("AAL45"), ("jia999"), ("")].map (fun c => jsToUpper (jsTrim c))).filter
      (fun c => isPsaCallsign (some c)) = [("JIA123"), ("JIA999")]) ∧
    isPsaCallsign none = false ∧
    (∀ cs : Option String, jsTrim (cs.getD ("")) = ("") → isPsaCallsign cs = false) ∧
    (∀ a : RouteAircraft, jsTrim (a.callsign.getD ("")) = ("") → isPsaAircraft a = false) := by
  refine ⟨by decide, by decide, by decide, ?_, ?_⟩
  · intro cs h
    unfold isPsaCallsign
    rw [h]
    decide
  · intro a h
    unfold isPsaAircraft
    rw [h]
    decide

/-- C5 witness: the empty-callsign exclusions of the theorem applied to
whitespace-only callsigns. -/
theorem C5_filter_allowed_witness :
    isPsaCallsign (some ("   ")) = false ∧
    isPsaAircraft ⟨none, some ("  "), 0, 0, false, none, none, none⟩ = false :=
  ⟨C5_filter_allowed.2.2.2.1 (some ("   ")) (by decide),
    C5_filter_allowed.2.2.2.2 ⟨none, some ("  "), 0, 0, false, none, none, none⟩ (by decide)⟩

end Route

/-- C9: evaluation at the failing input. The token cache holds a
still-valid token T (`now = 50 < exp = 100`). `getOpenSkyToken` — whose
source signature takes no forceRefresh parameter at all — returns the
cached T without performing any exchange (the `false` component), even
though the route's 401 retry calls it as `getOpenSkyToken({forceRefresh:
true})` expecting a fresh token. The route model then shows the retry
semantics: on a 401 the upstream request is retried exactly once (two
fetches total, never a third on a repeated 401), both carrying the same
cached token T. -/
theorem C9_forced_refresh_ignored :
    (OpenSkyAuth.getOpenSkyToken (some ⟨("T"), 100⟩) 50 ⟨true, ("NEW"), some 1800⟩ =
      .ok (("T"), some ⟨("T"), 100⟩, false)) ∧
    ((Route.GET ⟨fun _ => none, fun _ => none⟩ 50 ("SAV") (some 500) false false
        ⟨true, true, .ok ("T"), .ok ("T"), some ⟨401, none⟩, some ⟨401, none⟩,
          true⟩).fetchCount = 2) ∧
    ((Route.GET ⟨fun _ => none, fun _ => none⟩ 50 ("SAV") (some 500) false false
        ⟨true, true, .ok ("T"), .ok ("T"), some ⟨401, none⟩, some ⟨401, none⟩,
          true⟩).fetchTokens = [("T"), ("T")]) :=
  ⟨rfl, by decide, by decide⟩

namespace OpenSkyClient

/-- Helper: once a promise is registered in the in-flight map for the
(cold) key, every further arrival attaches to it without issuing a
network call or changing the state. -/
theorem osRun_attached (now : ℤ) (pid : ℕ) (st : OSState) (h : st.cache = none)
    (hin : st.inflight = some pid) (next : ℕ) (n : ℕ) :
    osRun st now next n = (List.replicate n (.await pid), st, next, 0) := by
  induction n with
  | zero => simp [osRun]
  | succ n ih =>
      unfold osRun osArrive
      rw [h, hin]
      simp [ih, List.replicate_succ]

/-- C2: for every number `n ≥ 1` of concurrent callers arriving on the
same cold cache key (no cache entry, nothing in flight) before the fetch
resolves, exactly one network call is issued, and — for every resolution
of the in-flight promises — all `n` callers resolve to the same payload,
namely the value of the single promise that was registered. -/
theorem C2_inflight_dedup (st : OSState) (h : st.cache = none) (hin : st.inflight = none)
    (now : ℤ) (n : ℕ) (hn : 1 ≤ n) (resolve : ℕ → String) :
    (osRun st now 0 n).2.2.2 = 1 ∧
    (osRun st now 0 n).1.map (resolveOutcome resolve) = List.replicate n (resolve 0) := by
  obtain ⟨m, rfl⟩ : ∃ m, n = m + 1 := ⟨n - 1, by omega⟩
  unfold osRun osArrive
  rw [h, hin]
  dsimp only
  rw [osRun_attached now 0 ⟨none, some 0, st.backoffUntil⟩ rfl rfl 1 m]
  simp [resolveOutcome, List.map_replicate, List.replicate_succ]

/-- C2 witness: three concurrent cold callers, a resolution delivering
payload P: one network call, all three callers obtain P. -/
theorem C2_inflight_dedup_witness :
    (osRun ⟨none, none, none⟩ 0 0 3).2.2.2 = 1 ∧
    (osRun ⟨none, none, none⟩ 0 0 3).1.map (resolveOutcome (fun _ => ("P"))) =
      List.replicate 3 (("P")) :=
  C2_inflight_dedup ⟨none, none, none⟩ rfl rfl 0 3 (by norm_num) (fun _ => ("P"))

end OpenSkyClient

namespace Route

theorem livePhase_status (st : ServerState) (now : ℤ) (key : String) (radiusNm : ℚ)
    (cachedPayload : Option RoutePayload) (dbCached : Option DbRow)
    (force debug : Bool) (dbWriteOk : Bool) (res : FetchRes) (count : ℕ)
    (toks : List String) :
    (livePhase st now key radiusNm cachedPayload dbCached force debug dbWriteOk res count
      toks).status = 200 := by
  unfold livePhase
  split
  · rfl
  · split <;> rfl

theorem GETKnown_status (st : ServerState) (now : ℤ) (key : String)
    (radiusParam : Option ℚ) (force debug : Bool) (o : Oracle) :
    (GETKnown st now key radiusParam force debug o).status = 200 := by
  unfold GETKnown
  dsimp only
  repeat' split
  all_goals first
    | rfl
    | apply livePhase_status

/-- C3: the aircraft-nearby endpoint returns HTTP 200 for every request
whose resolved base code is a known airport — for every cache state and
every combination of token, upstream, timeout and durable-store
behaviors — and HTTP 404 for every unknown base code. -/
theorem C3_http_status (st : ServerState) (now : ℤ) (icaoParam : String)
    (radiusParam : Option ℚ) (force debug : Bool) (o : Oracle) :
    ((AIRPORTS (jsTrim (jsToUpper icaoParam))).isSome →
      (GET st now icaoParam radiusParam force debug o).status = 200) ∧
    (AIRPORTS (jsTrim (jsToUpper icaoParam)) = none →
      (GET st now icaoParam radiusParam force debug o).status = 404) := by
  unfold GET
  cases hA : AIRPORTS (jsTrim (jsToUpper icaoParam)) with
  | none => simp [hA]
  | some ap => simp [hA, GETKnown_status]

theorem livePhase_fetchCount (st : ServerState) (now : ℤ) (key : String) (radiusNm : ℚ)
    (cachedPayload : Option RoutePayload) (dbCached : Option DbRow)
    (force debug : Bool) (dbWriteOk : Bool) (res : FetchRes) (count : ℕ)
    (toks : List String) :
    (livePhase st now key radiusNm cachedPayload dbCached force debug dbWriteOk res count
      toks).fetchCount = count := by
  unfold livePhase
  split
  · rfl
  · split <;> rfl

theorem allPsa_filter (l : List RouteAircraft) : allPsa (l.filter isPsaAircraft) := by
  intro a ha
  exact (List.mem_filter.mp ha).2

theorem memInv_update {mem : String × ℚ → Option MemEntry} (h : memInv mem)
    (ck : String × ℚ) (now : ℤ) {p : RoutePayload} (hp : payloadPsa p) :
    memInv (updateMem mem ck ⟨now, p⟩) := by
  intro ck' m hm
  unfold updateMem at hm
  by_cases hck : ck' = ck
  · rw [if_pos hck] at hm
    obtain rfl := Option.some.inj hm
    exact hp
  · rw [if_neg hck] at hm
    exact h ck' m hm

theorem fallbackPayload_psa (cp : Option RoutePayload) (key : String) (radiusNm : ℚ) :
    payloadPsa (fallbackPayload cp key radiusNm) := by
  intro l hl
  unfold fallbackPayload at hl
  dsimp only at hl
  obtain rfl := Option.some.inj hl
  exact allPsa_filter _

theorem failStep_inv (st : ServerState) (now : ℤ) (key : String) (radiusNm : ℚ)
    (cachedPayload : Option RoutePayload) (dbCached : Option DbRow)
    (force : Bool) (dbWriteOk : Bool) (src : String) (count : ℕ) (toks : List String)
    (h : memInv st.mem) :
    resultPsa (failStep st now key radiusNm cachedPayload dbCached force dbWriteOk src
      count toks) ∧
    memInv (failStep st now key radiusNm cachedPayload dbCached force dbWriteOk src
      count toks).state'.mem := by
  have hp : payloadPsa { fallbackPayload cachedPayload key radiusNm with
      stale := some true
      source := some src
      updatedAt := dbCached.map (fun r => r.updated_at) } := by
    intro l hl
    dsimp only at hl
    exact fallbackPayload_psa cachedPayload key radiusNm l hl
  constructor
  · intro p hpay
    obtain rfl := Option.some.inj hpay
    exact hp
  · exact memInv_update h _ now hp

theorem successStep_inv (st : ServerState) (now : ℤ) (key : String) (radiusNm : ℚ)
    (dbWriteOk : Bool) (res : FetchRes) (count : ℕ) (toks : List String)
    (h : memInv st.mem) :
    resultPsa (successStep st now key radiusNm dbWriteOk res count toks) ∧
    memInv (successStep st now key radiusNm dbWriteOk res count toks).state'.mem := by
  have hp : payloadPsa (⟨some key, some radiusNm,
      some (((res.states.getD []).filterMap normalizeState).filter isPsaAircraft),
      some false, some ("opensky_live"), some now⟩ : RoutePayload) := by
    intro l hl
    obtain rfl := Option.some.inj hl
    exact allPsa_filter _
  constructor
  · intro p hpay
    obtain rfl := Option.some.inj hpay
    exact hp
  · exact memInv_update h _ now hp

theorem livePhase_inv (st : ServerState) (now : ℤ) (key : String) (radiusNm : ℚ)
    (cachedPayload : Option RoutePayload) (dbCached : Option DbRow)
    (force debug : Bool) (dbWriteOk : Bool) (res : FetchRes) (count : ℕ)
    (toks : List String) (h : memInv st.mem) :
    resultPsa (livePhase st now key radiusNm cachedPayload dbCached force debug dbWriteOk
      res count toks) ∧
    memInv (livePhase st now key radiusNm cachedPayload dbCached force debug dbWriteOk
      res count toks).state'.mem := by
  unfold livePhase
  split
  · exact ⟨(fun p hp => nomatch hp), h⟩
  · split
    · exact successStep_inv _ _ _ _ _ _ _ _ h
    · exact failStep_inv _ _ _ _ _ _ _ _ _ _ _ h

theorem GETKnown_inv (st : ServerState) (now : ℤ) (key : String) (radiusParam : Option ℚ)
    (force debug : Bool) (o : Oracle) (h : memInv st.mem) :
    resultPsa (GETKnown st now key radiusParam force debug o) ∧
    memInv (GETKnown st now key radiusParam force debug o).state'.mem := by
  unfold GETKnown
  dsimp only
  split
  case _ m heq =>
    refine ⟨?_, h⟩
    intro p hp
    obtain rfl := Option.some.inj hp
    have hmem : st.mem (key, round2 (radiusParam.getD DEFAULT_RADIUS_NM)) = some m := by
      by_cases hf : force
      · rw [if_pos hf] at heq
        simp at heq
      · rw [if_neg hf] at heq
        rcases hm : st.mem (key, round2 (radiusParam.getD DEFAULT_RADIUS_NM)) with _ | m'
        · rw [hm] at heq
          simp at heq
        · rw [hm] at heq
          dsimp only at heq
          by_cases ht : now - m'.ts < MEM_CACHE_MS
          · rw [if_pos ht] at heq
            exact heq
          · rw [if_neg ht] at heq
            simp at heq
    exact h _ m hmem
  case _ heq =>
    split
    case _ cp heq2 =>
      have hpp : payloadPsa { cp with
          aircraft := some ((cp.aircraft.getD []).filter isPsaAircraft)
          stale := some (!((if force then none
            else if o.dbRead1Ok = true then st.db (key, radiusParam.getD DEFAULT_RADIUS_NM)
            else none).isSome &&
            decide (now - (match (if force then none
              else if o.dbRead1Ok = true then st.db (key, radiusParam.getD DEFAULT_RADIUS_NM)
              else none) with
              | some r => r.updated_at
              | none => 0) < FRESH_TTL_MS)))
          source := some (if ((if force then none
            else if o.dbRead1Ok = true then st.db (key, radiusParam.getD DEFAULT_RADIUS_NM)
            else none).isSome &&
            decide (now - (match (if force then none
              else if o.dbRead1Ok = true then st.db (key, radiusParam.getD DEFAULT_RADIUS_NM)
              else none) with
              | some r => r.updated_at
              | none => 0) < FRESH_TTL_MS)) = true then ("cache_fresh")
            else ("cache_cooldown"))
          updatedAt := some (match (if force then none
            else if o.dbRead1Ok = true then st.db (key, radiusParam.getD DEFAULT_RADIUS_NM)
            else none) with
            | some r => r.updated_at
            | none => 0) } := by
        intro l hl
        dsimp only at hl
        obtain rfl := Option.some.inj hl
        exact allPsa_filter _
      refine ⟨?_, ?_⟩
      · intro p hp
        obtain rfl := Option.some.inj hp
        exact hpp
      · exact memInv_update h _ now hpp
    case _ heq2 =>
      split
      · exact failStep_inv _ _ _ _ _ _ _ _ _ _ _ h
      · split
        · exact failStep_inv _ _ _ _ _ _ _ _ _ _ _ h
        · split
          · split
            · exact failStep_inv _ _ _ _ _ _ _ _ _ _ _ h
            · split
              · exact failStep_inv _ _ _ _ _ _ _ _ _ _ _ h
              · exact livePhase_inv _ _ _ _ _ _ _ _ _ _ _ _ h
          · exact livePhase_inv _ _ _ _ _ _ _ _ _ _ _ _ h

/-- C6: every response the handler returns — served from the memory
cache, the durable cache (fresh or cooldown), a live fetch, or a failure
fallback — carries only aircraft that pass the airline allow-list
filter, provided every memory-cache entry was itself written by the
handler (the memory-cache invariant, which the handler preserves). -/
theorem C6_filter_every_tier (st : ServerState) (now : ℤ) (icaoParam : String)
    (radiusParam : Option ℚ) (force debug : Bool) (o : Oracle) (h : memInv st.mem) :
    resultPsa (GET st now icaoParam radiusParam force debug o) ∧
    memInv (GET st now icaoParam radiusParam force debug o).state'.mem := by
  unfold GET
  dsimp only
  split
  · exact ⟨(fun p hp => nomatch hp), h⟩
  · exact GETKnown_inv _ _ _ _ _ _ _ h

/-- C6 witness: starting from an empty memory cache (which trivially
satisfies the invariant), a live fetch that returns one PSA and one
non-PSA vector yields a response and successor state covered by the
theorem. -/
theorem C6_filter_every_tier_witness :
    resultPsa (GET ⟨fun _ => none, fun _ => none⟩ 0 ("SAV") none false false
      ⟨true, true, .ok ("T"), .ok ("T"),
        some ⟨200, some [⟨some ("a1"), some ("JIA55 "), none, some 2, some 1, false,
          some 100, some 10⟩,
          ⟨some ("a2"), some ("UAL1"), none, some 2, some 1, false, some 100, some 10⟩]⟩,
        none, true⟩) ∧
    memInv (GET ⟨fun _ => none, fun _ => none⟩ 0 ("SAV") none false false
      ⟨true, true, .ok ("T"), .ok ("T"),
        some ⟨200, some [⟨some ("a1"), some ("JIA55 "), none, some 2, some 1, false,
          some 100, some 10⟩,
          ⟨some ("a2"), some ("UAL1"), none, some 2, some 1, false, some 100, some 10⟩]⟩,
        none, true⟩).state'.mem :=
  C6_filter_every_tier ⟨fun _ => none, fun _ => none⟩ 0 ("SAV") none false false
    ⟨true, true, .ok ("T"), .ok ("T"),
      some ⟨200, some [⟨some ("a1"), some ("JIA55 "), none, some 2, some 1, false,
        some 100, some 10⟩,
        ⟨some ("a2"), some ("UAL1"), none, some 2, some 1, false, some 100, some 10⟩]⟩,
      none, true⟩ (fun _ _ hm => nomatch hm)

/-- C3 witness: a known base with a failing upstream still yields 200; an
unknown base yields 404. -/
theorem C3_http_status_witness :
    (GET ⟨fun _ => none, fun _ => none⟩ 0 ("SAV") none false false
      ⟨true, true, .ok ("T"), .ok ("T"), some ⟨503, none⟩, none, true⟩).status = 200 ∧
    (GET ⟨fun _ => none, fun _ => none⟩ 0 ("XXX") none false false
      ⟨true, true, .ok ("T"), .ok ("T"), some ⟨503, none⟩, none, true⟩).status = 404 :=
  ⟨(C3_http_status ⟨fun _ => none, fun _ => none⟩ 0 ("SAV") none false false
      ⟨true, true, .ok ("T"), .ok ("T"), some ⟨503, none⟩, none, true⟩).1 (by decide),
    (C3_http_status ⟨fun _ => none, fun _ => none⟩ 0 ("XXX") none false false
      ⟨true, true, .ok ("T"), .ok ("T"), some ⟨503, none⟩, none, true⟩).2 (by decide)⟩

/-- C1 counterexample: cold caches, upstream answers HTTP 500 at time 0;
the failure path writes the durable cooldown row (`setCooldown` sets
`updated_at = 0` and `cooldown_until = 10000`) — first conjunct. A
subsequent call at time 1000 that reads that durable row with a cold
ephemeral cache (for example on another process instance, which shares
only the durable tier) is strictly within the cooldown window, yet —
because `setCooldown` refreshed `updated_at` — the row counts as fresh
and the handler returns `stale = false, source = "cache_fresh"`, not
`stale = true, source = "cache_cooldown"` as the claim requires of every
call inside the window. No network call is made (`fetchCount = 0`). -/
theorem C1_counterexample :
    ((GET ⟨fun _ => none, fun _ => none⟩ 0 ("SAV") (some 500) false false
        ⟨true, true, .ok ("T"), .ok ("T"), some ⟨500, none⟩, none, true⟩).state'.db
          ((("SAV")), 500) =
      some ⟨0, some 10000, some (fallbackPayload none ("SAV") 500)⟩) ∧
    ((1000 : ℤ) < 10000) ∧
    ((GET ⟨fun _ => none,
        fun k => if k = ((("SAV")), (500 : ℚ)) then
          some ⟨0, some 10000, some (fallbackPayload none ("SAV") 500)⟩ else none⟩
        1000 ("SAV") (some 500) false false
        ⟨true, true, .ok ("T"), .ok ("T"), some ⟨500, none⟩, none, true⟩).payload.bind
          (fun p => p.stale) = some false) ∧
    ((GET ⟨fun _ => none,
        fun k => if k = ((("SAV")), (500 : ℚ)) then
          some ⟨0, some 10000, some (fallbackPayload none ("SAV") 500)⟩ else none⟩
        1000 ("SAV") (some 500) false false
        ⟨true, true, .ok ("T"), .ok ("T"), some ⟨500, none⟩, none, true⟩).payload.bind
          (fun p => p.source) = some ("cache_fresh")) ∧
    ((GET ⟨fun _ => none,
        fun k => if k = ((("SAV")), (500 : ℚ)) then
          some ⟨0, some 10000, some (fallbackPayload none ("SAV") 500)⟩ else none⟩
        1000 ("SAV") (some 500) false false
        ⟨true, true, .ok ("T"), .ok ("T"), some ⟨500, none⟩, none, true⟩).fetchCount = 0) := by
  have hq : (decide (|(500 : ℚ) - 500| < 1 / 1000)) = true := decide_eq_true (by norm_num)
  have hk : jsTrim (jsToUpper ("SAV")) = ("SAV") := by decide
  refine ⟨by decide, by decide, ?_, ?_, ?_⟩ <;>
    simp only [GET, GETKnown, AIRPORTS, hk, hq, FRESH_TTL_MS, MEM_CACHE_MS,
      Option.getD_some, Option.getD_none, Option.some_bind, Option.isSome_some,
      fallbackPayload, Bool.true_and, Bool.true_or, Bool.not_true, Bool.false_eq_true,
      if_false, if_true, ite_true, ite_false, Bool.true_eq_false, eq_self_iff_true,
      List.filter_nil, Option.bind_some] <;>
    norm_num

/-- C1 (amended): consider a call for a key whose durable row is in
cooldown, where the call misses the ephemeral cache (no entry, or the
entry is at least MEM_CACHE_MS old), the stored payload parses and
matches the requested radius, and the durable row is no longer within
FRESH_TTL_MS. While `now < cooldownUntil` the handler returns the cached
payload tagged `stale = true, source = "cache_cooldown"` and performs no
network call; once `cooldownUntil ≤ now` (cooldown elapsed) the handler
proceeds to a live fetch (at least one upstream call whenever the token
manager yields a token). (The original claim said this of *every* call
inside the window; calls served by the ephemeral cache replay the
memoized payload with its stored source tag, and a durable row younger
than FRESH_TTL_MS — which `setCooldown` itself produces for 3 seconds,
since it refreshes `updated_at` — is served as `stale = false,
source = "cache_fresh"`.) -/
theorem C1_cooldown_amended (st : ServerState) (now : ℤ) (icaoParam : String)
    (radiusParam : Option ℚ) (debug : Bool) (o : Oracle) (ap : Airport)
    (row : DbRow) (cp : RoutePayload) (cu : ℤ) (radP : ℚ)
    (hA : AIRPORTS (jsTrim (jsToUpper icaoParam)) = some ap)
    (hmem : ∀ m, st.mem (jsTrim (jsToUpper icaoParam),
      round2 (radiusParam.getD DEFAULT_RADIUS_NM)) = some m → MEM_CACHE_MS ≤ now - m.ts)
    (hread : o.dbRead1Ok = true)
    (hdb : st.db (jsTrim (jsToUpper icaoParam), radiusParam.getD DEFAULT_RADIUS_NM) =
      some row)
    (hp : row.payload = some cp)
    (hcd : row.cooldown_until = some cu)
    (hcu0 : cu ≠ 0)
    (hr2 : cp.radiusNm = some radP)
    (hmatch : |radP - radiusParam.getD DEFAULT_RADIUS_NM| < 1 / 1000)
    (hstale : FRESH_TTL_MS ≤ now - row.updated_at) :
    (now < cu →
      (GET st now icaoParam radiusParam false debug o).status = 200 ∧
      (GET st now icaoParam radiusParam false debug o).fetchCount = 0 ∧
      (GET st now icaoParam radiusParam false debug o).payload =
        some { cp with
          aircraft := some ((cp.aircraft.getD []).filter isPsaAircraft)
          stale := some true
          source := some ("cache_cooldown")
          updatedAt := some row.updated_at }) ∧
    (cu ≤ now → ∀ tok, o.token1 = .ok tok →
      1 ≤ (GET st now icaoParam radiusParam false debug o).fetchCount) := by
  have hfresh : (decide (now - row.updated_at < FRESH_TTL_MS)) = false :=
    decide_eq_false (not_lt.mpr hstale)
  have hbne : (cu != 0) = true := by simp [hcu0]
  have hmr : (decide (|radP - radiusParam.getD DEFAULT_RADIUS_NM| < 1 / 1000)) = true :=
    decide_eq_true hmatch
  constructor
  · intro hlt
    have hcdec : (decide (now < cu)) = true := decide_eq_true hlt
    rcases hm : st.mem (jsTrim (jsToUpper icaoParam),
        round2 (radiusParam.getD DEFAULT_RADIUS_NM)) with _ | m
    · simp only [GET, GETKnown, hA, hm, hread, hdb, hp, hcd, hr2, hfresh, hbne, hcdec,
        hmr, Option.getD_some, Option.some_bind, Option.isSome_some, Bool.true_and,
        Bool.and_false, Bool.false_or, Bool.and_true, Bool.not_false, Bool.false_eq_true,
        if_false, if_true, Bool.true_eq_false, ite_true, ite_false]
      exact ⟨trivial, trivial, trivial⟩
    · have hold : ¬ (now - m.ts < MEM_CACHE_MS) := not_lt.mpr (hmem m hm)
      simp only [GET, GETKnown, hA, hm, hold, hread, hdb, hp, hcd, hr2, hfresh, hbne,
        hcdec, hmr, Option.getD_some, Option.some_bind, Option.isSome_some, Bool.true_and,
        Bool.and_false, Bool.false_or, Bool.and_true, Bool.not_false, Bool.false_eq_true,
        if_false, if_true, Bool.true_eq_false, ite_true, ite_false]
      exact ⟨trivial, trivial, trivial⟩
  · intro hge tok htok
    have hcdec : (decide (now < cu)) = false := decide_eq_false (not_lt.mpr hge)
    have hserve : ∀ st' : ServerState,
        1 ≤ (match o.fetch1 with
          | none => failStep st' now (jsTrim (jsToUpper icaoParam))
              (radiusParam.getD DEFAULT_RADIUS_NM) (some cp) (some row) false o.dbWriteOk
              ("cache_fetch_failed") 1 [tok]
          | some r1 =>
              if r1.status = 401 then
                match o.token2 with
                | .error _ => failStep st' now (jsTrim (jsToUpper icaoParam))
                    (radiusParam.getD DEFAULT_RADIUS_NM) (some cp) (some row) false
                    o.dbWriteOk ("cache_fetch_failed") 1 [tok]
                | .ok tok2 =>
                    match o.fetch2 with
                    | none => failStep st' now (jsTrim (jsToUpper icaoParam))
                        (radiusParam.getD DEFAULT_RADIUS_NM) (some cp) (some row) false
                        o.dbWriteOk ("cache_fetch_failed") 2 [tok, tok2]
                    | some r2 => livePhase st' now (jsTrim (jsToUpper icaoParam))
                        (radiusParam.getD DEFAULT_RADIUS_NM) (some cp) (some row) false
                        debug o.dbWriteOk r2 2 [tok, tok2]
              else livePhase st' now (jsTrim (jsToUpper icaoParam))
                (radiusParam.getD DEFAULT_RADIUS_NM) (some cp) (some row) false debug
                o.dbWriteOk r1 1 [tok]).fetchCount := by
      intro st'
      rcases hf1 : o.fetch1 with _ | r1
      · exact Nat.le.refl
      · dsimp only
        by_cases h401 : r1.status = 401
        · rw [if_pos h401]
          rcases ht2 : o.token2 with e | tok2
          · exact Nat.le.refl
          · rcases hf2 : o.fetch2 with _ | r2
            · exact (by norm_num : (1:ℕ) ≤ 2)
            · rw [livePhase_fetchCount]
              norm_num
        · rw [if_neg h401]
          rw [livePhase_fetchCount]
    rcases hm : st.mem (jsTrim (jsToUpper icaoParam),
        round2 (radiusParam.getD DEFAULT_RADIUS_NM)) with _ | m
    · simp only [GET, GETKnown, hA, hm, hread, hdb, hp, hcd, hr2, hfresh, hbne, hcdec,
        hmr, htok, Option.getD_some, Option.some_bind, Option.isSome_some, Bool.true_and,
        Bool.and_false, Bool.false_or, Bool.and_true, Bool.false_eq_true, if_false,
        if_true, Bool.true_eq_false, ite_true, ite_false]
      exact hserve _
    · have hold : ¬ (now - m.ts < MEM_CACHE_MS) := not_lt.mpr (hmem m hm)
      simp only [GET, GETKnown, hA, hm, hold, hread, hdb, hp, hcd, hr2, hfresh, hbne,
        hcdec, hmr, htok, Option.getD_some, Option.some_bind, Option.isSome_some,
        Bool.true_and, Bool.and_false, Bool.false_or, Bool.and_true, Bool.false_eq_true,
        if_false, if_true, Bool.true_eq_false, ite_true, ite_false]
      exact hserve _

/-- C1 witness: the amended theorem applied at a concrete cooldown row
(`cooldown_until = 4000`, `updated_at = -5000`): at time 0 (inside the
window) the call serves `cache_cooldown` with zero upstream calls; at
time 5000 (window elapsed) a live fetch is attempted. -/
theorem C1_cooldown_amended_witness :
    ((GET ⟨fun _ => none,
        fun k => if k = ((("SAV")), (500 : ℚ)) then
          some ⟨-5000, some 4000, some ⟨some ("SAV"), some 500, some [], none, none, none⟩⟩
        else none⟩ 0 ("SAV") (some 500) false false
        ⟨true, true, .ok ("T"), .ok ("T"), none, none, true⟩).fetchCount = 0 ∧
      (GET ⟨fun _ => none,
        fun k => if k = ((("SAV")), (500 : ℚ)) then
          some ⟨-5000, some 4000, some ⟨some ("SAV"), some 500, some [], none, none, none⟩⟩
        else none⟩ 0 ("SAV") (some 500) false false
        ⟨true, true, .ok ("T"), .ok ("T"), none, none, true⟩).payload =
        some { (⟨some ("SAV"), some 500, some [], none, none, none⟩ : RoutePayload) with
          aircraft := some (([] : List RouteAircraft).filter isPsaAircraft)
          stale := some true
          source := some ("cache_cooldown")
          updatedAt := some (-5000) }) ∧
    1 ≤ (GET ⟨fun _ => none,
        fun k => if k = ((("SAV")), (500 : ℚ)) then
          some ⟨-5000, some 4000, some ⟨some ("SAV"), some 500, some [], none, none, none⟩⟩
        else none⟩ 5000 ("SAV") (some 500) false false
        ⟨true, true, .ok ("T"), .ok ("T"), none, none, true⟩).fetchCount := by
  constructor
  · have h := (C1_cooldown_amended ⟨fun _ => none,
        fun k => if k = ((("SAV")), (500 : ℚ)) then
          some ⟨-5000, some 4000, some ⟨some ("SAV"), some 500, some [], none, none, none⟩⟩
        else none⟩ 0 ("SAV") (some 500) false
        ⟨true, true, .ok ("T"), .ok ("T"), none, none, true⟩
        ⟨("KSAV"), 32.1270, -81.2020⟩ ⟨-5000, some 4000,
          some ⟨some ("SAV"), some 500, some [], none, none, none⟩⟩
        ⟨some ("SAV"), some 500, some [], none, none, none⟩ 4000 500
        (by rw [show jsTrim (jsToUpper ("SAV")) = ("SAV") from by decide]; rfl)
        (fun m hm => nomatch hm) rfl (by decide) rfl rfl
        (by decide) rfl (by norm_num) (by decide)).1 (by decide)
    exact ⟨h.2.1, h.2.2⟩
  · exact (C1_cooldown_amended ⟨fun _ => none,
        fun k => if k = ((("SAV")), (500 : ℚ)) then
          some ⟨-5000, some 4000, some ⟨some ("SAV"), some 500, some [], none, none, none⟩⟩
        else none⟩ 5000 ("SAV") (some 500) false
        ⟨true, true, .ok ("T"), .ok ("T"), none, none, true⟩
        ⟨("KSAV"), 32.1270, -81.2020⟩ ⟨-5000, some 4000,
          some ⟨some ("SAV"), some 500, some [], none, none, none⟩⟩
        ⟨some ("SAV"), some 500, some [], none, none, none⟩ 4000 500
        (by rw [show jsTrim (jsToUpper ("SAV")) = ("SAV") from by decide]; rfl)
        (fun m hm => nomatch hm) rfl (by decide) rfl rfl
        (by decide) rfl (by norm_num) (by decide)).2 (by decide) ("T") rfl

theorem failStep_db_force (st : ServerState) (now : ℤ) (key : String) (radiusNm : ℚ)
    (cachedPayload : Option RoutePayload) (dbCached : Option DbRow) (dbWriteOk : Bool)
    (src : String) (count : ℕ) (toks : List String) :
    (failStep st now key radiusNm cachedPayload dbCached true dbWriteOk src count
      toks).state'.db = st.db := rfl

theorem livePhase_db_force {res : FetchRes} (hro : responseOk res = false)
    (st : ServerState) (now : ℤ) (key : String) (radiusNm : ℚ)
    (cachedPayload : Option RoutePayload) (dbCached : Option DbRow)
    (debug : Bool) (dbWriteOk : Bool) (count : ℕ) (toks : List String) :
    (livePhase st now key radiusNm cachedPayload dbCached true debug dbWriteOk res count
      toks).state'.db = st.db := by
  unfold livePhase
  split
  · rfl
  · simp only [hro, Bool.false_eq_true, if_false]
    exact failStep_db_force _ _ _ _ _ _ _ _ _ _

/-- C4 counterexample: the durable row for the key has no cooldown; a
forced request (`force = true`) hits an upstream HTTP 500, yet the
resulting state still has `cooldown_until = none` — the claim required
it to be set to `now + COOLDOWN_MS = 10000`. The `setCooldown` call is
guarded by `if (!force)` in both failure paths. -/
theorem C4_counterexample :
    (((GET ⟨fun _ => none,
        fun k => if k = ((("SAV")), (500 : ℚ)) then some ⟨-100000, none, none⟩ else none⟩
        0 ("SAV") (some 500) true false
        ⟨true, true, .ok ("T"), .ok ("T"), some ⟨500, none⟩, none, true⟩).state'.db
          ((("SAV")), 500)).bind (fun r => r.cooldown_until) = none) ∧
    ((none : Option ℤ) ≠ some ((0 : ℤ) + COOLDOWN_ON_FAIL_MS)) := by
  exact ⟨by decide, by decide⟩

/-- C4 (amended): a forced request whose live fetch fails does not touch
the durable row at all: the `setCooldown` call is guarded by `if
(!force)`, so the cooldown state is left unchanged and a forced request
does exempt the key from the backoff it would otherwise trigger. Only a
non-forced failed request updates the durable entry, setting
`cooldown_until = now + COOLDOWN_ON_FAIL_MS` (second conjunct, shown for
a cold key with a successful durable write). -/
theorem C4_force_cooldown_amended (st : ServerState) (now : ℤ) (icaoParam : String)
    (radiusParam : Option ℚ) (debug : Bool) (o : Oracle) (ap : Airport)
    (hA : AIRPORTS (jsTrim (jsToUpper icaoParam)) = some ap)
    (hfail : liveFails o) :
    ((GET st now icaoParam radiusParam true debug o).state'.db = st.db) ∧
    (st.mem (jsTrim (jsToUpper icaoParam), round2 (radiusParam.getD DEFAULT_RADIUS_NM)) =
        none →
      st.db (jsTrim (jsToUpper icaoParam), radiusParam.getD DEFAULT_RADIUS_NM) = none →
      o.dbWriteOk = true → debug = false →
      (GET st now icaoParam radiusParam false debug o).state'.db
          (jsTrim (jsToUpper icaoParam), radiusParam.getD DEFAULT_RADIUS_NM) =
        some ⟨now, some (now + COOLDOWN_ON_FAIL_MS),
          some (fallbackPayload none (jsTrim (jsToUpper icaoParam))
            (radiusParam.getD DEFAULT_RADIUS_NM))⟩) := by
  constructor
  · rcases hfail with ⟨e, he⟩ | ⟨tok, htok, hrest⟩
    · simp [GET, GETKnown, hA, he, failStep_db_force]
    · rcases hrest with hf1 | ⟨r1, hf1, hinner⟩
      · simp [GET, GETKnown, hA, htok, hf1, failStep_db_force]
      · by_cases h401 : r1.status = 401
        · rw [if_pos h401] at hinner
          rcases hinner with ⟨e2, he2⟩ | ⟨tok2, htok2, hrest2⟩
          · simp [GET, GETKnown, hA, htok, hf1, h401, he2, failStep_db_force]
          · rcases hrest2 with hf2 | ⟨r2, hf2, hro⟩
            · simp [GET, GETKnown, hA, htok, hf1, h401, htok2, hf2, failStep_db_force]
            · simp [GET, GETKnown, hA, htok, hf1, h401, htok2, hf2,
                livePhase_db_force hro]
        · rw [if_neg h401] at hinner
          simp [GET, GETKnown, hA, htok, hf1, h401, livePhase_db_force hinner]
  · intro hm0 hd0 hw hdbg
    rcases hfail with ⟨e, he⟩ | ⟨tok, htok, hrest⟩
    · simp [GET, GETKnown, failStep, updateDb, hA, hm0, hd0, hw, hdbg, he, ite_self]
    · rcases hrest with hf1 | ⟨r1, hf1, hinner⟩
      · simp [GET, GETKnown, failStep, updateDb, hA, hm0, hd0, hw, hdbg, htok, hf1,
          ite_self]
      · by_cases h401 : r1.status = 401
        · rw [if_pos h401] at hinner
          rcases hinner with ⟨e2, he2⟩ | ⟨tok2, htok2, hrest2⟩
          · simp [GET, GETKnown, failStep, updateDb, hA, hm0, hd0, hw, hdbg, htok, hf1,
              h401, he2, ite_self]
          · rcases hrest2 with hf2 | ⟨r2, hf2, hro⟩
            · simp [GET, GETKnown, failStep, updateDb, hA, hm0, hd0, hw, hdbg, htok,
                hf1, h401, htok2, hf2, ite_self]
            · simp [GET, GETKnown, livePhase, failStep, updateDb, hA, hm0, hd0, hw,
                hdbg, htok, hf1, h401, htok2, hf2, hro, ite_self]
        · rw [if_neg h401] at hinner
          simp [GET, GETKnown, livePhase, failStep, updateDb, hA, hm0, hd0, hw, hdbg,
            htok, hf1, h401, hinner, ite_self]

/-- C4 witness: the amended theorem applied at a concrete failing
oracle: a forced request leaves the durable map untouched; the same
failure without force writes the cooldown row. -/
theorem C4_force_cooldown_amended_witness :
    ((GET ⟨fun _ => none,
        fun k => if k = ((("SAV")), (500 : ℚ)) then some ⟨-100000, none, none⟩ else none⟩
        0 ("SAV") (some 500) true false
        ⟨true, true, .ok ("T"), .ok ("T"), some ⟨500, none⟩, none, true⟩).state'.db =
      (⟨fun _ => none,
        fun k => if k = ((("SAV")), (500 : ℚ)) then some ⟨-100000, none, none⟩ else none⟩ :
          ServerState).db) ∧
    ((GET ⟨fun _ => none, fun _ => none⟩ 0 ("SAV") (some 500) false false
        ⟨true, true, .ok ("T"), .ok ("T"), some ⟨500, none⟩, none, true⟩).state'.db
          (jsTrim (jsToUpper ("SAV")), (some (500 : ℚ)).getD DEFAULT_RADIUS_NM) =
      some ⟨0, some ((0 : ℤ) + COOLDOWN_ON_FAIL_MS),
        some (fallbackPayload none (jsTrim (jsToUpper ("SAV")))
          ((some (500 : ℚ)).getD DEFAULT_RADIUS_NM))⟩) := by
  have hfail : liveFails ⟨true, true, .ok ("T"), .ok ("T"), some ⟨500, none⟩, none, true⟩ := by
    refine Or.inr ⟨("T"), rfl, Or.inr ⟨⟨500, none⟩, rfl, ?_⟩⟩
    rw [if_neg (by decide)]
    decide
  constructor
  · exact (C4_force_cooldown_amended ⟨fun _ => none,
      fun k => if k = ((("SAV")), (500 : ℚ)) then some ⟨-100000, none, none⟩ else none⟩
      0 ("SAV") (some 500) false
      ⟨true, true, .ok ("T"), .ok ("T"), some ⟨500, none⟩, none, true⟩
      ⟨("KSAV"), 32.1270, -81.2020⟩
      (by rw [show jsTrim (jsToUpper ("SAV")) = ("SAV") from by decide]; rfl) hfail).1
  · exact (C4_force_cooldown_amended ⟨fun _ => none, fun _ => none⟩
      0 ("SAV") (some 500) false
      ⟨true, true, .ok ("T"), .ok ("T"), some ⟨500, none⟩, none, true⟩
      ⟨("KSAV"), 32.1270, -81.2020⟩
      (by rw [show jsTrim (jsToUpper ("SAV")) = ("SAV") from by decide]; rfl) hfail).2
      rfl rfl rfl rfl

end Route

namespace SurfaceMap

theorem lastN_length (n : ℕ) (l : List TrailPoint) : (lastN n l).length ≤ n := by
  unfold lastN
  rw [List.length_drop]
  omega

theorem pruned_appendPruned (now : ℤ) (prev : List TrailPoint) (p : TrailPoint) :
    pruned now (appendPruned now prev p) := by
  intro q hq
  unfold appendPruned lastN at hq
  exact of_decide_eq_true (List.mem_filter.mp (List.mem_of_mem_drop hq)).2

theorem pruned_filter (now : ℤ) (prev : List TrailPoint) :
    pruned now (prev.filter (fun p => decide (now - p.t ≤ MAX_TRAIL_AGE_MS))) := by
  intro q hq
  exact of_decide_eq_true (List.mem_filter.mp hq).2

theorem setTrail_ageOk_or_eq {now : ℤ} (tr : Trails) (key : String)
    (v : List TrailPoint) (hv : pruned now v) (k : String) :
    (setTrail tr key v) k = tr k ∨ ageOk now (setTrail tr key v) k := by
  by_cases hk : k = key
  · right
    intro l hl
    unfold setTrail at hl
    rw [if_pos hk] at hl
    obtain rfl := Option.some.inj hl
    exact hv
  · left
    unfold setTrail
    rw [if_neg hk]

theorem setTrail_bounded {tr : Trails} (h : boundedTrails tr) {v : List TrailPoint}
    (hlen : v.length ≤ MAX_TRAIL_POINTS) (key : String) :
    boundedTrails (setTrail tr key v) := by
  intro k l hl
  unfold setTrail at hl
  by_cases hk : k = key
  · rw [if_pos hk] at hl
    obtain rfl := Option.some.inj hl
    exact hlen
  · rw [if_neg hk] at hl
    exact h k l hl

/-- Helper: one loop iteration either leaves a key untouched or stores
an age-pruned sequence under it. -/
theorem trailStep_ageOk_or_eq (now : ℤ) (tr : Trails) (a : TAircraft) (k : String) :
    (trailStep now tr a) k = tr k ∨ ageOk now (trailStep now tr a) k := by
  unfold trailStep
  by_cases hk0 : aircraftKey a = ("")
  · rw [if_pos hk0]
    exact Or.inl rfl
  · rw [if_neg hk0]
    rcases hla : a.lat with _ | la
    · exact Or.inl rfl
    · rcases hlo : a.lon with _ | lo
      · exact Or.inl rfl
      · dsimp only
        by_cases hv : a.velocity.getD 0 * MS_TO_KTS ≤ TRAIL_MIN_KTS
        · rw [if_pos hv]
          exact Or.inl rfl
        · rw [if_neg hv]
          rcases hlast : ((tr (aircraftKey a)).getD []).getLast? with _ | lastP
          · exact setTrail_ageOk_or_eq tr _ _ (pruned_appendPruned now _ _) k
          · dsimp only
            by_cases hmv : metersBetween ⟨lastP.lat, lastP.lon⟩ ⟨la, lo⟩ ≥ MIN_MOVE_METERS
            · rw [if_pos hmv]
              exact setTrail_ageOk_or_eq tr _ _ (pruned_appendPruned now _ _) k
            · rw [if_neg hmv]
              exact setTrail_ageOk_or_eq tr _ _ (pruned_filter now _) k

/-- Helper: one loop iteration preserves the point-count bound. -/
theorem trailStep_bounded {tr : Trails} (h : boundedTrails tr) (now : ℤ) (a : TAircraft) :
    boundedTrails (trailStep now tr a) := by
  unfold trailStep
  by_cases hk0 : aircraftKey a = ("")
  · rw [if_pos hk0]
    exact h
  · rw [if_neg hk0]
    rcases hla : a.lat with _ | la
    · exact h
    · rcases hlo : a.lon with _ | lo
      · exact h
      · dsimp only
        by_cases hv : a.velocity.getD 0 * MS_TO_KTS ≤ TRAIL_MIN_KTS
        · rw [if_pos hv]
          exact h
        · rw [if_neg hv]
          have hprev : ((tr (aircraftKey a)).getD []).length ≤ MAX_TRAIL_POINTS := by
            cases htk : tr (aircraftKey a) with
            | none => simp [MAX_TRAIL_POINTS]
            | some l0 => simpa using h _ l0 htk
          rcases hlast : ((tr (aircraftKey a)).getD []).getLast? with _ | lastP
          · exact setTrail_bounded h (lastN_length _ _) _
          · dsimp only
            by_cases hmv : metersBetween ⟨lastP.lat, lastP.lon⟩ ⟨la, lo⟩ ≥ MIN_MOVE_METERS
            · rw [if_pos hmv]
              exact setTrail_bounded h (lastN_length _ _) _
            · rw [if_neg hmv]
              exact setTrail_bounded h (le_trans (List.length_filter_le _ _) hprev) _

theorem foldl_bounded (now : ℤ) : ∀ (acs : List TAircraft) (tr : Trails),
    boundedTrails tr → boundedTrails (acs.foldl (trailStep now) tr)
  | [], _, h => h
  | a :: rest, _, h => foldl_bounded now rest _ (trailStep_bounded h now a)

theorem foldl_ageOk (now : ℤ) : ∀ (acs : List TAircraft) (tr : Trails) (k : String),
    ageOk now tr k → ageOk now (acs.foldl (trailStep now) tr) k
  | [], _, _, h => h
  | a :: rest, tr, k, h => by
      apply foldl_ageOk now rest
      rcases trailStep_ageOk_or_eq now tr a k with heq | hok
      · intro l hl
        rw [heq] at hl
        exact h l hl
      · exact hok

/-- Helper: an aircraft that passes the key, coordinate and speed gates
gets its trail rewritten, and both rewrite branches age-prune. -/
theorem trailStep_processed {a : TAircraft} (hp : processed a) (now : ℤ) (tr : Trails) :
    ageOk now (trailStep now tr a) (aircraftKey a) := by
  obtain ⟨hk, ⟨la, hla⟩, ⟨lo, hlo⟩, hv⟩ := hp
  unfold trailStep
  rw [if_neg hk, hla, hlo]
  dsimp only
  rw [if_neg (not_le.mpr hv)]
  rcases hlast : ((tr (aircraftKey a)).getD []).getLast? with _ | lastP
  · intro l hl
    dsimp only at hl
    unfold setTrail at hl
    rw [if_pos rfl] at hl
    obtain rfl := Option.some.inj hl
    exact pruned_appendPruned _ _ _
  · dsimp only
    by_cases hmv : metersBetween ⟨lastP.lat, lastP.lon⟩ ⟨la, lo⟩ ≥ MIN_MOVE_METERS
    · rw [if_pos hmv]
      intro l hl
      unfold setTrail at hl
      rw [if_pos rfl] at hl
      obtain rfl := Option.some.inj hl
      exact pruned_appendPruned _ _ _
    · rw [if_neg hmv]
      intro l hl
      unfold setTrail at hl
      rw [if_pos rfl] at hl
      obtain rfl := Option.some.inj hl
      exact pruned_filter _ _

theorem foldl_processed (now : ℤ) : ∀ (acs : List TAircraft) (tr : Trails)
    {a : TAircraft}, a ∈ acs → processed a →
    ageOk now (acs.foldl (trailStep now) tr) (aircraftKey a)
  | [], _, _, ha, _ => absurd ha (List.not_mem_nil _)
  | b :: rest, tr, a, ha, hp => by
      rcases List.mem_cons.mp ha with rfl | ha'
      · exact foldl_ageOk now rest _ _ (trailStep_processed hp now tr)
      · exact foldl_processed now rest _ ha' hp

/-- C8 counterexample: the stored trail for key A holds one point of age
180000 ms (older than MAX_TRAIL_AGE_MS = 120000). A trail-update pass at
time 180000 whose snapshot list contains aircraft A — present but
stationary (velocity 0, i.e. at most TRAIL_MIN_KTS) — skips A before any
pruning, and the cleanup keeps A because it is live. After the pass the
expired point is still stored, refuting the claim that no stored point
is older than MAX_TRAIL_AGE_MS after every pass. -/
theorem C8_counterexample :
    (updateTrails 180000 (fun k => if k = ("A") then some [⟨0, 0, 0⟩] else none)
      [⟨some ("A"), none, some 0, some 0, some 0⟩]) ("A") = some [⟨0, 0, 0⟩] ∧
    ¬ ((180000 : ℤ) - (0 : ℤ) ≤ MAX_TRAIL_AGE_MS) := by
  have hkey : aircraftKey ⟨some ("A"), none, some 0, some 0, some 0⟩ = ("A") := by decide
  constructor
  · have hstep : trailStep 180000 (fun k => if k = ("A") then some [⟨0, 0, 0⟩] else none)
        ⟨some ("A"), none, some 0, some 0, some 0⟩ =
        (fun k => if k = ("A") then some [⟨0, 0, 0⟩] else none) := by
      unfold trailStep
      rw [if_neg (show ¬ (aircraftKey ⟨some ("A"), none, some 0, some 0, some 0⟩ = (""))
        by rw [hkey]; decide)]
      dsimp only
      rw [if_pos (show ((some (0 : ℝ)).getD 0) * MS_TO_KTS ≤ TRAIL_MIN_KTS by
        norm_num [MS_TO_KTS, TRAIL_MIN_KTS])]
    unfold updateTrails
    dsimp only [List.foldl]
    rw [hstep, if_pos (show ("A") ∈ liveKeys [⟨some ("A"), none, some 0, some 0, some 0⟩]
      by decide)]
    simp
  · decide

/-- C8 (amended): after a trail-update pass, (1) every stored trail has
at most MAX_TRAIL_POINTS points, provided every trail had at most that
many before the pass (the bound is an invariant the pass preserves);
(2) for every aircraft of the snapshot list that the loop actually
processes — non-empty key, numeric coordinates, speed strictly above
TRAIL_MIN_KTS — the trail stored under its key contains no point older
than MAX_TRAIL_AGE_MS (so once that age elapses with no qualifying
points, the trail is empty); and (3) every key absent from the snapshot
list is discarded entirely. (The original claim asserted the age bound
for every aircraft; an aircraft that is present but skipped — for
example stationary, at or below TRAIL_MIN_KTS — keeps its stale points,
as the counterexample shows.) -/
theorem C8_trails_amended (now : ℤ) (tr : Trails) (acs : List TAircraft)
    (hb : boundedTrails tr) :
    boundedTrails (updateTrails now tr acs) ∧
    (∀ a ∈ acs, processed a → ageOk now (updateTrails now tr acs) (aircraftKey a)) ∧
    (∀ k, k ∉ liveKeys acs → (updateTrails now tr acs) k = none) := by
  refine ⟨?_, ?_, ?_⟩
  · intro k l hl
    unfold updateTrails at hl
    by_cases hk : k ∈ liveKeys acs
    · rw [if_pos hk] at hl
      exact foldl_bounded now acs tr hb k l hl
    · rw [if_neg hk] at hl
      exact absurd hl (by simp)
  · intro a ha hp
    have hlive : aircraftKey a ∈ liveKeys acs := by
      unfold liveKeys
      rw [List.mem_filter]
      refine ⟨List.mem_map_of_mem _ ha, ?_⟩
      simpa using hp.1
    intro l hl
    unfold updateTrails at hl
    rw [if_pos hlive] at hl
    exact foldl_processed now acs tr ha hp l hl
  · intro k hk
    unfold updateTrails
    rw [if_neg hk]

/-- C8 witness: the amended theorem applied to an empty trail store and
one fast aircraft A: bounds hold, A's trail is age-pruned, and the
absent key B stores nothing. -/
theorem C8_trails_amended_witness :
    boundedTrails (updateTrails 0 (fun _ => none)
      [⟨some ("A"), none, some 0, some 0, some 10⟩]) ∧
    ageOk 0 (updateTrails 0 (fun _ => none) [⟨some ("A"), none, some 0, some 0, some 10⟩])
      (aircraftKey ⟨some ("A"), none, some 0, some 0, some 10⟩) ∧
    (updateTrails 0 (fun _ => none) [⟨some ("A"), none, some 0, some 0, some 10⟩]) ("B") =
      none := by
  have h := C8_trails_amended 0 (fun _ => none)
    [⟨some ("A"), none, some 0, some 0, some 10⟩] (fun _ l hl => nomatch hl)
  refine ⟨h.1, ?_, ?_⟩
  · exact h.2.1 _ (List.mem_cons_self _ _)
      ⟨by decide, ⟨0, rfl⟩, ⟨0, rfl⟩,
        by norm_num [Option.getD_some, MS_TO_KTS, TRAIL_MIN_KTS]⟩
  · exact h.2.2 ("B") (by decide)

end SurfaceMap

end PsaTrack
